import Mathlib

/-!
Verification of the claudeClient agent (src/main.cpp): a shallow embedding
of the tool-calling agent loop, its conversation history management, and
the three tools (read_file, write_file, bash), together with theorems
settling the specification claims.

External collaborators (the HTTP completion service, the nlohmann JSON
parser used on tool-call argument strings, the filesystem and process
primitives) are parameters of the model; everything else is translated
from the C++ source.
-/

namespace ClaudeClient

/-- Substring matching at the head of a character list: the pattern (first
argument) is a character-by-character match of an initial segment of the
second argument. -/
def leadEq : List Char → List Char → Bool
  | [], _ => true
  | _ :: _, [] => false
  | p :: ps, c :: cs => p == c && leadEq ps cs

/-- Search for the pattern at every suffix of the character list. -/
def subSearch (pat : List Char) : List Char → Bool
  | [] => leadEq pat []
  | c :: cs => leadEq pat (c :: cs) || subSearch pat cs

/-- Model of C++ `s.find(pat) != std::string::npos`: whether `pat` occurs
as a contiguous substring of `s`. -/
def containsSub (s pat : String) : Bool := subSearch pat.data s.data

/-- Model of nlohmann::json values, as far as the agent inspects them. -/
inductive Json where
  | null
  | bool (b : Bool)
  | num (n : Int)
  | str (s : String)
  | arr (xs : List Json)
  | obj (fields : List (String × Json))

/-- Association-list lookup used to model `j.contains(key)` / `j[key]`. -/
def lookupField : List (String × Json) → String → Option Json
  | [], _ => none
  | (k, v) :: rest, key => if k == key then some v else lookupField rest key

/-- `j[key]` when `j.contains(key)`, else `none`. -/
def jsonField : Json → String → Option Json
  | Json.obj fields, key => lookupField fields key
  | _, _ => none

/-- Model of `args.contains(key) && args[key].is_string()` followed by
extraction of the string value: `some s` exactly when the field is present
and is a string. -/
def jsonStrField (j : Json) (key : String) : Option String :=
  match jsonField j key with
  | some (Json.str s) => some s
  | _ => none

/-- First character of a string, modelling `path[0]` (which the C++ code
only evaluates behind a non-emptiness guard); a blank for the empty
string. -/
def headChar (s : String) : Char :=
  match s.data with
  | [] => ' '
  | c :: _ => c

/-- First `n` characters of a string, modelling an `istream::read` of `n`
bytes into a buffer. -/
def strTake (s : String) (n : Nat) : String := String.mk (s.data.take n)

/-- Observable side effects a tool performs on the outside world. The
validation paths of the tools are required to produce an empty trace. -/
inductive Eff where
  | openRead (path : String)
  | readBytes (path : String)
  | openTrunc (path : String)
  | writeBytes (path : String) (content : String)
  | spawn (command : String)
deriving DecidableEq

/-- Result of constructing an `ifstream` on a path: either the open fails,
or it yields a stream whose `tellg()` at the end reports `size` and whose
actual byte content is `content` (an honest filesystem reports
`size = content.length`). -/
inductive ReadOpen where
  | fail
  | ok (size : Int) (content : String)

/-- Result of `_popen`: failure, or a process producing a sequence of
`fgets` chunks and an exit code from `_pclose`. -/
inductive PopenRes where
  | fail
  | ok (chunks : List String) (exitCode : Int)

/-- The external world the tools act on: filesystem read/write primitives,
the process spawner, and the JSON parser applied to tool-call argument
strings (nlohmann's `json::parse`, an external library). -/
structure Env where
  fsRead : String → ReadOpen
  openWrite : String → Bool
  writeOk : String → String → Bool
  popen : String → PopenRes
  jparse : String → Option Json

/-- ReadFileTool::execute (src/main.cpp lines 63-99): argument validation,
path-traversal check, open, size determination, 1,000,000-byte limit,
then the read itself. Returns the result string and the I/O trace. -/
def ReadFileTool.execute (env : Env) (args : Json) : String × List Eff :=
  match jsonStrField args "path" with
  | none => ("ERROR : invalid argumnets.", [])
  | some path =>
    if containsSub path ".." then
      ("ERROR : path traversal detected.", [])
    else
      match env.fsRead path with
      | ReadOpen.fail => ("ERROR : could not open file.", [Eff.openRead path])
      | ReadOpen.ok size content =>
        if size < 0 then
          ("ERROR: could not determine file size.", [Eff.openRead path])
        else if 1000000 < size then
          ("ERROR: File too Large", [Eff.openRead path])
        else if size.toNat ≤ content.length then
          (strTake content size.toNat, [Eff.openRead path, Eff.readBytes path])
        else
          ("ERROR: file read failed.", [Eff.openRead path, Eff.readBytes path])

/-- WriteFileTool::execute (src/main.cpp lines 105-140): both arguments
present and strings; path non-empty, free of "..", not starting with '/',
free of ':'; content at most 1,000,000 bytes; then open (binary,
truncating) and write. -/
def WriteFileTool.execute (env : Env) (args : Json) : String × List Eff :=
  match jsonStrField args "path", jsonStrField args "content" with
  | some path, some content =>
    if path == "" || containsSub path ".." || headChar path == '/'
        || containsSub path ":" then
      ("ERROR: invalid arguments ", [])
    else if 1000000 < content.length then
      ("ERROR: content too large.", [])
    else if env.openWrite path then
      if env.writeOk path content then
        ("SUCESS: file written.", [Eff.openTrunc path, Eff.writeBytes path content])
      else
        ("ERROR: write failed.", [Eff.openTrunc path, Eff.writeBytes path content])
    else
      ("ERROR: could not open file for writing.", [Eff.openTrunc path])
  | _, _ => ("ERROR: invalid arguments", [])

/-- Output-capture loop of BashTool (src/main.cpp lines 170-180):
accumulate `fgets` chunks; `none` when the accumulated output exceeds
1,000,000 bytes (capture aborted). -/
def readAllChunks : List String → String → Option String
  | [], acc => some acc
  | c :: cs, acc =>
    let acc' := acc ++ c
    if 1000000 < acc'.length then none else readAllChunks cs acc'

/-- BashTool::execute (src/main.cpp lines 146-190): argument validation,
empty-command check, substring denylist ("sudo", "rm -rf /"), then
`_popen`/capture/`_pclose` and the formatted exit-code/output response. -/
def BashTool.execute (env : Env) (args : Json) : String × List Eff :=
  match jsonStrField args "command" with
  | none => ("ERROR: inveild arguments.", [])
  | some command =>
    if command == "" then
      ("ERROR: empty command", [])
    else if containsSub command "sudo" || containsSub command "rm -rf /" then
      ("ERROR: command not allowed.", [])
    else
      match env.popen command with
      | PopenRes.fail => ("ERROR: failed to execute command.", [Eff.spawn command])
      | PopenRes.ok chunks exitCode =>
        match readAllChunks chunks "" with
        | none => ("ERROR: output too large.", [Eff.spawn command])
        | some out =>
          ("EXIT_CODE: " ++ toString exitCode ++ "\n" ++ "OUTPUT:\n" ++ out,
           [Eff.spawn command])

/-- ToolRegistry lookup after the three `register_tool` calls of `main`
(src/main.cpp lines 232-238): `read_file`, `write_file`, `bash`; any other
name is unregistered. -/
def ToolRegistry.get (env : Env) (name : String) :
    Option (Json → String × List Eff) :=
  if name == "read_file" then some (ReadFileTool.execute env)
  else if name == "write_file" then some (WriteFileTool.execute env)
  else if name == "bash" then some (BashTool.execute env)
  else none

/-- One tool-call request from the completion service:
`call["id"]`, `call["function"]["name"]`, `call["function"]["arguments"]`. -/
structure ToolCallReq where
  id : String
  name : String
  arguments : String
deriving DecidableEq

/-- A conversation message as the loop inspects it: optional role,
optional string content, optional tool_call_id, and the tool_calls field
(`some calls` when the JSON field is present, even if empty). -/
structure Message where
  role : Option String
  content : Option String
  tool_call_id : Option String
  tool_calls : Option (List ToolCallReq)
deriving DecidableEq

/-- The seed message `{role: "user", content: prompt}` (src/main.cpp
lines 299-301). -/
def userMsg (prompt : String) : Message :=
  { role := some "user", content := some prompt,
    tool_call_id := none, tool_calls := none }

/-- The tool-result message `{role: "tool", tool_call_id: id, content:
result}` appended after each tool execution (src/main.cpp lines 404-408). -/
def toolMsg (id result : String) : Message :=
  { role := some "tool", content := some result,
    tool_call_id := some id, tool_calls := none }

/-- Role normalization of the assistant message (src/main.cpp
lines 370-372): a message without a role gets `role = "assistant"`. -/
def normalizeRole (m : Message) : Message :=
  match m.role with
  | none => { m with role := some "assistant" }
  | some _ => m

/-- Iteration budget `MAX_ITER` (src/main.cpp line 306). -/
def MAX_ITER : Nat := 10

/-- History capacity `MAX_MESSAGES` (src/main.cpp line 376). -/
def MAX_MESSAGES : Nat := 30

/-- Appending the assistant message with the eviction rule (src/main.cpp
lines 374-379): push, then if the length exceeds `MAX_MESSAGES` erase the
message at index 1. This size check runs only here; tool-result appends
are plain pushes. -/
def appendAssistant (msgs : List Message) (m : Message) : List Message :=
  if MAX_MESSAGES < (msgs ++ [m]).length then (msgs ++ [m]).eraseIdx 1
  else msgs ++ [m]

/-- Execution of one tool call (src/main.cpp lines 384-401): parse the
argument string, substituting an empty object on failure; look the tool up
in the registry; execute it, or produce `"ERROR: TOOL NOT FOUND"` when the
name is unregistered. -/
def callResult (env : Env) (c : ToolCallReq) : String × List Eff :=
  let args := match env.jparse c.arguments with
    | some j => j
    | none => Json.obj []
  match ToolRegistry.get env c.name with
  | none => ("ERROR: TOOL NOT FOUND", [])
  | some f => f args

/-- Processing of the tool calls of one assistant message, in order
(src/main.cpp lines 383-409): the tool-result messages appended and the
combined I/O trace. -/
def processCalls (env : Env) : List ToolCallReq → List Message × List Eff
  | [] => ([], [])
  | c :: cs =>
    (toolMsg c.id (callResult env c).1 :: (processCalls env cs).1,
     (callResult env c).2 ++ (processCalls env cs).2)

/-- One response of the completion service, as the loop classifies it:
the fatal transport and protocol failures (src/main.cpp lines 337-365), or
a well-formed `choices[0].message`. -/
inductive SvcResp where
  | connectionError
  | httpStatusError
  | invalidJson
  | noChoices
  | message (m : Message)

/-- Observable outcome of a run: process exit code, the content printed on
termination (if any), the number of loop-body iterations executed, the
final conversation history, whether the max-iterations warning was
reported, and the accumulated tool I/O trace. -/
structure LoopResult where
  exitCode : Nat
  printed : Option String
  itersUsed : Nat
  finalMessages : List Message
  warned : Bool
  trace : List Eff
deriving DecidableEq

/-- The tool loop (src/main.cpp lines 307-419), `fuel` iterations of
budget remaining and `done` iterations executed. Fatal transport/protocol
failures exit with code 1; a message with tool calls is appended (with
eviction), its calls processed, and the loop recurses; a message without
tool calls ends the run, printing its content when present. Exhausting the
budget sets the warning flag and exits 0 (src/main.cpp lines 421-424). -/
def loopGo (env : Env) (svc : Nat → List Message → SvcResp) :
    Nat → Nat → List Message → List Eff → LoopResult
  | 0, done, msgs, tr =>
    { exitCode := 0, printed := none, itersUsed := done,
      finalMessages := msgs, warned := true, trace := tr }
  | fuel + 1, done, msgs, tr =>
    match svc done msgs with
    | SvcResp.connectionError =>
      { exitCode := 1, printed := none, itersUsed := done + 1,
        finalMessages := msgs, warned := false, trace := tr }
    | SvcResp.httpStatusError =>
      { exitCode := 1, printed := none, itersUsed := done + 1,
        finalMessages := msgs, warned := false, trace := tr }
    | SvcResp.invalidJson =>
      { exitCode := 1, printed := none, itersUsed := done + 1,
        finalMessages := msgs, warned := false, trace := tr }
    | SvcResp.noChoices =>
      { exitCode := 1, printed := none, itersUsed := done + 1,
        finalMessages := msgs, warned := false, trace := tr }
    | SvcResp.message m0 =>
      match (normalizeRole m0).tool_calls with
      | some calls =>
        loopGo env svc fuel (done + 1)
          (appendAssistant msgs (normalizeRole m0) ++ (processCalls env calls).1)
          (tr ++ (processCalls env calls).2)
      | none =>
        { exitCode := 0, printed := (normalizeRole m0).content,
          itersUsed := done + 1,
          finalMessages := appendAssistant msgs (normalizeRole m0),
          warned := false, trace := tr }

/-- A full run of `main`'s tool loop from the seed history. -/
def runAgent (env : Env) (svc : Nat → List Message → SvcResp)
    (prompt : String) : LoopResult :=
  loopGo env svc MAX_ITER 0 [userMsg prompt] []

/-! Concrete environments and scripted completion services used to
instantiate the theorems on explicit inputs. -/

/-- A world where every open and every spawn fails and no argument string
parses; the validation paths of the tools never consult it. -/
def env0 : Env :=
  { fsRead := fun _ => ReadOpen.fail, openWrite := fun _ => false,
    writeOk := fun _ _ => false, popen := fun _ => PopenRes.fail,
    jparse := fun _ => none }

/-- A world whose every path opens as a zero-length file. -/
def envEmptyFile : Env := { env0 with fsRead := fun _ => ReadOpen.ok 0 "" }

/-- A world whose every path opens as a file reporting 1,000,001 bytes. -/
def envBigFile : Env :=
  { env0 with fsRead := fun _ => ReadOpen.ok 1000001 "x" }

/-- A world where opening for write and writing always succeed. -/
def envWritable : Env :=
  { env0 with openWrite := fun _ => true, writeOk := fun _ _ => true }

/-- Thirty-one identical tool-call requests for an unregistered tool. -/
def bigCalls : List ToolCallReq :=
  List.replicate 31 { id := "i", name := "x", arguments := "" }

/-- A scripted service: the first response is an assistant message with 31
tool calls, every later response is a plain final answer. -/
def svcC1 : Nat → List Message → SvcResp := fun i _ =>
  if i = 0 then
    SvcResp.message
      { role := some "assistant", content := none,
        tool_call_id := none, tool_calls := some bigCalls }
  else
    SvcResp.message
      { role := some "assistant", content := some "done",
        tool_call_id := none, tool_calls := none }

/-- An assistant message carrying a single unterminated tool call. -/
def mToolCall : Message :=
  { role := some "assistant", content := none, tool_call_id := none,
    tool_calls := some [{ id := "1", name := "x", arguments := "" }] }

/-- A scripted service that always requests a tool call. -/
def svcTools : Nat → List Message → SvcResp :=
  fun _ _ => SvcResp.message mToolCall

/-- An assistant message with textual content and no tool_calls field. -/
def mFinal : Message :=
  { role := some "assistant", content := some "hi",
    tool_call_id := none, tool_calls := none }

/-- A scripted service whose every response is the final answer `mFinal`. -/
def svcFinal : Nat → List Message → SvcResp :=
  fun _ _ => SvcResp.message mFinal

/-- A 1,000,001-character string, exceeding the write tool's limit. -/
def bigString : String := String.mk (List.replicate 1000001 'a')

/-- A tool-call request for a name registered under no tool. -/
def cNope : ToolCallReq := { id := "id0", name := "nope", arguments := "" }

/-- Arguments with a traversal path. -/
def argsTraversal : Json :=
  Json.obj [("path", Json.str "../x"), ("content", Json.str "c")]

/-- Arguments naming a denylisted shell command. -/
def argsSudo : Json :=
  Json.obj [("command", Json.str "sudo rm important-file")]

/-- Arguments naming an empty shell command. -/
def argsEmptyCmd : Json := Json.obj [("command", Json.str "")]

/-- Arguments with only a plain path field. -/
def argsPathF : Json := Json.obj [("path", Json.str "f")]

/-- Write arguments whose content exceeds the 1,000,000-byte limit. -/
def argsBigContent : Json :=
  Json.obj [("path", Json.str "g"), ("content", Json.str bigString)]

/-- Write arguments whose path carries a drive separator. -/
def argsColon : Json :=
  Json.obj [("path", Json.str "a:b"), ("content", Json.str "c")]

/-- Valid write arguments. -/
def argsWrite : Json :=
  Json.obj [("path", Json.str "f"), ("content", Json.str "hello")]

/-! Helper lemmas shared by the claim theorems. -/

/-- Role normalization does not touch the tool_calls field. -/
theorem normalizeRole_tool_calls (m : Message) :
    (normalizeRole m).tool_calls = m.tool_calls := by
  cases m with
  | mk r c i t => cases r <;> rfl

/-- Role normalization does not touch the content field. -/
theorem normalizeRole_content (m : Message) :
    (normalizeRole m).content = m.content := by
  cases m with
  | mk r c i t => cases r <;> rfl

/-- The assistant append keeps the head of a non-empty history. -/
theorem appendAssistant_cons (a : Message) (rest : List Message)
    (m : Message) : ∃ l, appendAssistant (a :: rest) m = a :: l := by
  unfold appendAssistant
  by_cases h : MAX_MESSAGES < ((a :: rest) ++ [m]).length
  · rw [if_pos h]
    exact ⟨(rest ++ [m]).eraseIdx 0, rfl⟩
  · rw [if_neg h]
    exact ⟨rest ++ [m], rfl⟩

/-- Through any run of the loop, the head of a non-empty history is
preserved: neither the assistant append (which evicts index 1) nor the
tool-result appends remove the first message. -/
theorem loopGo_head (env : Env) (svc : Nat → List Message → SvcResp) :
    ∀ (fuel done : Nat) (a : Message) (rest : List Message) (tr : List Eff),
    ∃ l, (loopGo env svc fuel done (a :: rest) tr).finalMessages = a :: l := by
  intro fuel
  induction fuel with
  | zero => intro done a rest tr; exact ⟨rest, rfl⟩
  | succ n ih =>
    intro done a rest tr
    unfold loopGo
    cases hs : svc done (a :: rest) with
    | connectionError => exact ⟨rest, rfl⟩
    | httpStatusError => exact ⟨rest, rfl⟩
    | invalidJson => exact ⟨rest, rfl⟩
    | noChoices => exact ⟨rest, rfl⟩
    | message m0 =>
      obtain ⟨l1, hl1⟩ := appendAssistant_cons a rest (normalizeRole m0)
      cases htc : (normalizeRole m0).tool_calls with
      | some calls =>
        simp only [htc, hl1]
        exact ih (done + 1) a (l1 ++ (processCalls env calls).1)
          (tr ++ (processCalls env calls).2)
      | none =>
        simp only [htc, hl1]
        exact ⟨l1, rfl⟩

/-! Claim C1. -/

/-- Claim C1 fails as stated: in the run scripted by `svcC1` (first
response carries 31 tool calls, second response is a final answer) the
conversation history ends with 33 messages, exceeding the capacity bound
of 30, because tool-result appends perform no eviction check. -/
theorem history_bound_counterexample :
    MAX_MESSAGES < (runAgent env0 svcC1 "p").finalMessages.length := by
  decide

/-- Claim C1 (amended): the seed message at index 0 is never removed (the
final history of every run still starts with it), and the single eviction
rule applies only to the assistant-message append — when that append
leaves the history within the 30-message capacity nothing is evicted, and
when it pushes the length past 30 exactly one message, the one at index 1,
is removed. Tool-result appends perform no eviction, so the history can
exceed 30. -/
theorem history_eviction_amended (env : Env)
    (svc : Nat → List Message → SvcResp) (prompt : String) :
    (∃ l, (runAgent env svc prompt).finalMessages = userMsg prompt :: l)
    ∧ (∀ (msgs : List Message) (m : Message),
        (msgs ++ [m]).length ≤ MAX_MESSAGES →
        appendAssistant msgs m = msgs ++ [m])
    ∧ (∀ (msgs : List Message) (m : Message),
        MAX_MESSAGES < (msgs ++ [m]).length →
        appendAssistant msgs m = (msgs ++ [m]).eraseIdx 1) := by
  refine ⟨loopGo_head env svc MAX_ITER 0 (userMsg prompt) [] [], ?_, ?_⟩
  · intro msgs m h
    unfold appendAssistant
    rw [if_neg (by omega)]
  · intro msgs m h
    unfold appendAssistant
    rw [if_pos h]

/-- Witness: the amended C1 statement applied to the `svcC1` script and to
concrete histories on both sides of the capacity bound. -/
theorem history_eviction_amended_witness :
    (∃ l, (runAgent env0 svcC1 "p").finalMessages = userMsg "p" :: l)
    ∧ appendAssistant [] (userMsg "q") = [] ++ [userMsg "q"]
    ∧ appendAssistant (List.replicate 30 (userMsg "r")) (userMsg "q")
        = (List.replicate 30 (userMsg "r") ++ [userMsg "q"]).eraseIdx 1 :=
  ⟨(history_eviction_amended env0 svcC1 "p").1,
   (history_eviction_amended env0 svcC1 "p").2.1 [] (userMsg "q")
     (by decide),
   (history_eviction_amended env0 svcC1 "p").2.2
     (List.replicate 30 (userMsg "r")) (userMsg "q") (by decide)⟩

/-! Claim C2. -/

/-- When every service response is a message carrying a tool_calls field,
each loop step recurses, so the whole budget is consumed: the result
reports `done + fuel` executed iterations, the warning flag, and exit
code 0. -/
theorem loopGo_budget (env : Env) (svc : Nat → List Message → SvcResp)
    (H : ∀ i ms, ∃ m, svc i ms = SvcResp.message m ∧ m.tool_calls ≠ none) :
    ∀ (fuel done : Nat) (msgs : List Message) (tr : List Eff),
      (loopGo env svc fuel done msgs tr).itersUsed = done + fuel
      ∧ (loopGo env svc fuel done msgs tr).warned = true
      ∧ (loopGo env svc fuel done msgs tr).exitCode = 0 := by
  intro fuel
  induction fuel with
  | zero => intro done msgs tr; exact ⟨rfl, rfl, rfl⟩
  | succ n ih =>
    intro done msgs tr
    obtain ⟨m, hm, htc⟩ := H done msgs
    unfold loopGo
    rw [hm]
    cases hcalls : (normalizeRole m).tool_calls with
    | none =>
      rw [normalizeRole_tool_calls] at hcalls
      exact absurd hcalls htc
    | some calls =>
      simp only [hcalls]
      obtain ⟨h1, h2, h3⟩ := ih (done + 1)
        (appendAssistant msgs (normalizeRole m) ++ (processCalls env calls).1)
        (tr ++ (processCalls env calls).2)
      refine ⟨?_, h2, h3⟩
      rw [h1]
      omega

/-- Claim C2: for a completion service whose every response carries a
tool_calls field (no final answer is ever produced), the loop executes
exactly the 10-iteration budget, the max-iterations warning is reported,
and the process exits normally with code 0. -/
theorem budget_exhaustion (env : Env) (svc : Nat → List Message → SvcResp)
    (prompt : String)
    (H : ∀ i ms, ∃ m, svc i ms = SvcResp.message m ∧ m.tool_calls ≠ none) :
    (runAgent env svc prompt).itersUsed = 10
    ∧ (runAgent env svc prompt).warned = true
    ∧ (runAgent env svc prompt).exitCode = 0 := by
  obtain ⟨h1, h2, h3⟩ :=
    loopGo_budget env svc H MAX_ITER 0 [userMsg prompt] []
  exact ⟨h1, h2, h3⟩

/-- Witness: claim C2 applied to the scripted service `svcTools`, whose
every response requests one unterminated tool call. -/
theorem budget_exhaustion_witness :
    (runAgent env0 svcTools "p").itersUsed = 10
    ∧ (runAgent env0 svcTools "p").warned = true
    ∧ (runAgent env0 svcTools "p").exitCode = 0 :=
  budget_exhaustion env0 svcTools "p"
    (fun _ _ => ⟨mToolCall, rfl, fun h => Option.noConfusion h⟩)

/-! Step equations for the loop, shared by several claims. -/

/-- One loop step on a message without tool calls: the run terminates with
exit code 0, printing the message content. -/
theorem loopGo_final_step (env : Env) (svc : Nat → List Message → SvcResp)
    (fuel done : Nat) (msgs : List Message) (tr : List Eff) (m : Message)
    (h1 : svc done msgs = SvcResp.message m) (h2 : m.tool_calls = none) :
    loopGo env svc (fuel + 1) done msgs tr =
      { exitCode := 0, printed := m.content, itersUsed := done + 1,
        finalMessages := appendAssistant msgs (normalizeRole m),
        warned := false, trace := tr } := by
  have h2' : (normalizeRole m).tool_calls = none := by
    rw [normalizeRole_tool_calls]; exact h2
  unfold loopGo
  rw [h1]
  simp only [h2', normalizeRole_content]

/-- One loop step on a message with a tool_calls field: the assistant
message is appended (with the eviction rule), the calls are processed, the
results are appended, and the loop recurses into its next iteration. -/
theorem loopGo_tool_step (env : Env) (svc : Nat → List Message → SvcResp)
    (fuel done : Nat) (msgs : List Message) (tr : List Eff) (m : Message)
    (calls : List ToolCallReq)
    (h1 : svc done msgs = SvcResp.message m)
    (h2 : m.tool_calls = some calls) :
    loopGo env svc (fuel + 1) done msgs tr =
      loopGo env svc fuel (done + 1)
        (appendAssistant msgs (normalizeRole m) ++ (processCalls env calls).1)
        (tr ++ (processCalls env calls).2) := by
  have h2' : (normalizeRole m).tool_calls = some calls := by
    rw [normalizeRole_tool_calls]; exact h2
  conv_lhs => unfold loopGo
  rw [h1]
  simp only [h2']

/-! Claim C7. -/

/-- Claim C7: when the completion service's first response is a message
with textual content and no tool_calls field, the loop terminates after
exactly one iteration, the printed output is that content string, and the
exit code is 0. -/
theorem first_response_final (env : Env)
    (svc : Nat → List Message → SvcResp) (prompt c : String) (m : Message)
    (h1 : svc 0 [userMsg prompt] = SvcResp.message m)
    (h2 : m.tool_calls = none) (h3 : m.content = some c) :
    (runAgent env svc prompt).itersUsed = 1
    ∧ (runAgent env svc prompt).printed = some c
    ∧ (runAgent env svc prompt).exitCode = 0 := by
  have hstep := loopGo_final_step env svc 9 0 [userMsg prompt] [] m h1 h2
  have hrun : runAgent env svc prompt
      = loopGo env svc (9 + 1) 0 [userMsg prompt] [] := rfl
  rw [hrun, hstep]
  exact ⟨rfl, h3, rfl⟩

/-- Witness: claim C7 on the scripted service `svcFinal`, whose first
response is the plain answer "hi". -/
theorem first_response_final_witness :
    (runAgent env0 svcFinal "p").itersUsed = 1
    ∧ (runAgent env0 svcFinal "p").printed = some "hi"
    ∧ (runAgent env0 svcFinal "p").exitCode = 0 :=
  first_response_final env0 svcFinal "p" "hi" mFinal rfl rfl rfl

/-! Claim C5. -/

/-- Every tool-result message produced by call processing carries the
tool_call_id of the request it answers, in order. -/
theorem processCalls_ids (env : Env) (calls : List ToolCallReq) :
    ((processCalls env calls).1).map Message.tool_call_id
      = calls.map (fun c => some c.id) := by
  induction calls with
  | nil => rfl
  | cons c cs ih =>
    simp only [processCalls, List.map, toolMsg]
    exact congrArg (List.cons (some c.id)) ih

/-- Claim C5: dispatching a tool call whose name is registered under no
tool appends a tool-result message with content exactly
"ERROR: TOOL NOT FOUND" and the request's tool_call_id (and touches no
I/O); every tool-result message carries the tool_call_id of the request
it answers; and a message carrying tool calls makes the loop proceed to
its next iteration rather than terminate. -/
theorem unknown_tool_dispatch (env : Env) :
    (∀ c : ToolCallReq, c.name ≠ "read_file" → c.name ≠ "write_file" →
        c.name ≠ "bash" →
        processCalls env [c] = ([toolMsg c.id "ERROR: TOOL NOT FOUND"], []))
    ∧ (∀ calls : List ToolCallReq,
        ((processCalls env calls).1).map Message.tool_call_id
          = calls.map (fun c => some c.id))
    ∧ (∀ (svc : Nat → List Message → SvcResp) (fuel done : Nat)
        (msgs : List Message) (tr : List Eff) (m : Message)
        (calls : List ToolCallReq),
        svc done msgs = SvcResp.message m → m.tool_calls = some calls →
        loopGo env svc (fuel + 1) done msgs tr
          = loopGo env svc fuel (done + 1)
              (appendAssistant msgs (normalizeRole m)
                ++ (processCalls env calls).1)
              (tr ++ (processCalls env calls).2)) := by
  refine ⟨?_, processCalls_ids env, ?_⟩
  · intro c hr hw hb
    simp [processCalls, callResult, ToolRegistry.get, hr, hw, hb]
  · intro svc fuel done msgs tr m calls h1 h2
    exact loopGo_tool_step env svc fuel done msgs tr m calls h1 h2

/-- Witness: claim C5 at the request `cNope` for the unregistered name
"nope", and the concrete loop step scripted by `svcTools`. -/
theorem unknown_tool_dispatch_witness :
    processCalls env0 [cNope] = ([toolMsg "id0" "ERROR: TOOL NOT FOUND"], [])
    ∧ ((processCalls env0 [cNope]).1).map Message.tool_call_id
        = [cNope].map (fun c => some c.id)
    ∧ loopGo env0 svcTools (0 + 1) 0 [] []
        = loopGo env0 svcTools 0 (0 + 1)
            (appendAssistant [] (normalizeRole mToolCall)
              ++ (processCalls env0
                    [{ id := "1", name := "x", arguments := "" }]).1)
            ([] ++ (processCalls env0
                    [{ id := "1", name := "x", arguments := "" }]).2) :=
  ⟨(unknown_tool_dispatch env0).1 cNope (by decide) (by decide) (by decide),
   (unknown_tool_dispatch env0).2.1 [cNope],
   (unknown_tool_dispatch env0).2.2 svcTools 0 0 [] [] mToolCall
     [{ id := "1", name := "x", arguments := "" }] rfl rfl⟩

/-! Claim C8. -/

/-- Claim C8: the tool calls of an assistant message are processed one
after another in the order received — the head call's result message, with
the head call's tool_call_id, precedes the results of the remaining
calls; when a call's arguments string fails to parse, the empty object is
substituted and execution proceeds (the looked-up tool receives
`Json.obj []`); and each appended tool-result message carries the
tool_call_id of its request. -/
theorem tool_call_processing (env : Env) :
    (∀ (c : ToolCallReq) (cs : List ToolCallReq),
        processCalls env (c :: cs)
          = (toolMsg c.id (callResult env c).1 :: (processCalls env cs).1,
             (callResult env c).2 ++ (processCalls env cs).2))
    ∧ (∀ c : ToolCallReq, env.jparse c.arguments = none →
        callResult env c
          = (match ToolRegistry.get env c.name with
             | none => ("ERROR: TOOL NOT FOUND", [])
             | some f => f (Json.obj [])))
    ∧ (∀ calls : List ToolCallReq,
        ((processCalls env calls).1).map Message.tool_call_id
          = calls.map (fun c => some c.id)) := by
  refine ⟨fun c cs => rfl, ?_, processCalls_ids env⟩
  intro c h
  unfold callResult
  rw [h]

/-- Witness: claim C8 on the unregistered request `cNope` (whose empty
arguments string fails to parse under `env0`) in front of an empty tail. -/
theorem tool_call_processing_witness :
    processCalls env0 (cNope :: [])
      = (toolMsg cNope.id (callResult env0 cNope).1
            :: (processCalls env0 []).1,
         (callResult env0 cNope).2 ++ (processCalls env0 []).2)
    ∧ callResult env0 cNope
        = (match ToolRegistry.get env0 cNope.name with
           | none => ("ERROR: TOOL NOT FOUND", [])
           | some f => f (Json.obj []))
    ∧ ((processCalls env0 [cNope]).1).map Message.tool_call_id
        = [cNope].map (fun c => some c.id) :=
  ⟨(tool_call_processing env0).1 cNope [],
   (tool_call_processing env0).2.1 cNope rfl,
   (tool_call_processing env0).2.2 [cNope]⟩

/-! Claim C3. -/

/-- Claim C3: for any argument object whose path string contains the
substring "..", ReadFileTool returns its traversal-error string and
WriteFileTool its validation-error string (the write tool folds the
traversal check into its combined argument-validation message), and
neither performs any filesystem I/O: the effect trace is empty in every
case. -/
theorem traversal_rejected (env : Env) (args : Json) (p : String)
    (hp : jsonStrField args "path" = some p)
    (hdots : containsSub p ".." = true) :
    ReadFileTool.execute env args = ("ERROR : path traversal detected.", [])
    ∧ (WriteFileTool.execute env args).2 = []
    ∧ (∀ cnt : String, jsonStrField args "content" = some cnt →
        WriteFileTool.execute env args
          = ("ERROR: invalid arguments ", [])) := by
  refine ⟨?_, ?_, ?_⟩
  · simp [ReadFileTool.execute, hp, hdots]
  · cases hc : jsonStrField args "content" with
    | none => simp [WriteFileTool.execute, hp, hc]
    | some cnt => simp [WriteFileTool.execute, hp, hc, hdots]
  · intro cnt hc
    simp [WriteFileTool.execute, hp, hc, hdots]

/-- Witness: claim C3 on arguments whose path is "../x". -/
theorem traversal_rejected_witness :
    ReadFileTool.execute env0 argsTraversal
      = ("ERROR : path traversal detected.", [])
    ∧ (WriteFileTool.execute env0 argsTraversal).2 = []
    ∧ WriteFileTool.execute env0 argsTraversal
        = ("ERROR: invalid arguments ", []) :=
  ⟨(traversal_rejected env0 argsTraversal "../x" (by decide) (by decide)).1,
   (traversal_rejected env0 argsTraversal "../x" (by decide) (by decide)).2.1,
   (traversal_rejected env0 argsTraversal "../x" (by decide)
     (by decide)).2.2 "c" (by decide)⟩

/-! Claim C4. -/

/-- Claim C4: a command string containing "sudo" or "rm -rf /" makes
BashTool return its denylist error with an empty effect trace (no child
process is spawned), and an empty command string gets the empty-command
error, likewise with no spawn. -/
theorem shell_denylist (env : Env) (args : Json) (cmd : String)
    (hc : jsonStrField args "command" = some cmd) :
    (cmd = "" → BashTool.execute env args = ("ERROR: empty command", []))
    ∧ ((containsSub cmd "sudo" || containsSub cmd "rm -rf /") = true →
        BashTool.execute env args = ("ERROR: command not allowed.", [])) := by
  constructor
  · intro he
    subst he
    simp [BashTool.execute, hc]
  · intro hden
    by_cases hcmd : cmd = ""
    · subst hcmd
      exact absurd hden (by decide)
    · simp [BashTool.execute, hc, hcmd, hden]

/-- Witness: claim C4 on the command "sudo rm important-file" and on the
empty command. -/
theorem shell_denylist_witness :
    BashTool.execute env0 argsSudo = ("ERROR: command not allowed.", [])
    ∧ BashTool.execute env0 argsEmptyCmd = ("ERROR: empty command", []) :=
  ⟨(shell_denylist env0 argsSudo "sudo rm important-file"
      (by decide)).2 (by decide),
   (shell_denylist env0 argsEmptyCmd "" (by decide)).1 rfl⟩

/-! Claim C6. -/

/-- The length of the oversized content string. -/
theorem bigString_length : bigString.length = 1000001 := by
  show (List.replicate 1000001 'a').length = 1000001
  exact List.length_replicate 1000001 'a'

/-- Claim C6: a file whose reported size exceeds 1,000,000 bytes makes
ReadFileTool return its over-size error after the open but before any
read (the trace holds the open alone); write arguments whose content
exceeds 1,000,000 bytes make WriteFileTool return its over-size error
with no filesystem effect at all. -/
theorem size_limits (env : Env) (args : Json) (p : String) (size : Int)
    (content : String)
    (hp : jsonStrField args "path" = some p)
    (hdots : containsSub p ".." = false)
    (hfs : env.fsRead p = ReadOpen.ok size content)
    (hbig : 1000000 < size) :
    ReadFileTool.execute env args
      = ("ERROR: File too Large", [Eff.openRead p])
    ∧ (∀ (args' : Json) (q c : String),
        jsonStrField args' "path" = some q →
        jsonStrField args' "content" = some c →
        (q == "" || containsSub q ".." || headChar q == '/'
          || containsSub q ":") = false →
        1000000 < c.length →
        WriteFileTool.execute env args'
          = ("ERROR: content too large.", [])) := by
  constructor
  · simp [ReadFileTool.execute, hp, hdots, hfs, hbig,
      show ¬size < 0 by omega]
  · intro args' q c hq hc hval hlen
    simp [WriteFileTool.execute, hq, hc, hval, hlen]

/-- Witness: claim C6 in the world `envBigFile` (every path reports
1,000,001 bytes) and on write arguments carrying `bigString`. -/
theorem size_limits_witness :
    ReadFileTool.execute envBigFile argsPathF
      = ("ERROR: File too Large", [Eff.openRead "f"])
    ∧ WriteFileTool.execute envBigFile argsBigContent
        = ("ERROR: content too large.", []) :=
  ⟨(size_limits envBigFile argsPathF "f" 1000001 "x" (by decide) (by decide)
      rfl (by decide)).1,
   (size_limits envBigFile argsPathF "f" 1000001 "x" (by decide) (by decide)
      rfl (by decide)).2 argsBigContent "g" bigString rfl rfl (by decide)
      (by rw [bigString_length]; decide)⟩

/-! Claim C9. -/

/-- Claim C9: WriteFileTool returns an error string with an empty effect
trace whenever an argument is absent or not a string, or the path is
empty, contains "..", begins with '/', or contains ':'; and when every
check passes and the open and the write succeed, it opens the target
truncating existing content, writes the full payload, and returns its
success string. -/
theorem write_tool_contract (env : Env) :
    (∀ args : Json,
        jsonStrField args "path" = none
          ∨ jsonStrField args "content" = none →
        WriteFileTool.execute env args = ("ERROR: invalid arguments", []))
    ∧ (∀ (args : Json) (p c : String),
        jsonStrField args "path" = some p →
        jsonStrField args "content" = some c →
        (p == "" || containsSub p ".." || headChar p == '/'
          || containsSub p ":") = true →
        WriteFileTool.execute env args = ("ERROR: invalid arguments ", []))
    ∧ (∀ (args : Json) (p c : String),
        jsonStrField args "path" = some p →
        jsonStrField args "content" = some c →
        (p == "" || containsSub p ".." || headChar p == '/'
          || containsSub p ":") = false →
        c.length ≤ 1000000 →
        env.openWrite p = true → env.writeOk p c = true →
        WriteFileTool.execute env args
          = ("SUCESS: file written.",
             [Eff.openTrunc p, Eff.writeBytes p c])) := by
  refine ⟨?_, ?_, ?_⟩
  · intro args h
    rcases h with hp | hc
    · cases hc : jsonStrField args "content" with
      | none => simp [WriteFileTool.execute, hp, hc]
      | some c => simp [WriteFileTool.execute, hp, hc]
    · cases hp : jsonStrField args "path" with
      | none => simp [WriteFileTool.execute, hp, hc]
      | some p => simp [WriteFileTool.execute, hp, hc]
  · intro args p c hp hc hval
    simp [WriteFileTool.execute, hp, hc, hval]
  · intro args p c hp hc hval hlen hopen hwrite
    simp [WriteFileTool.execute, hp, hc, hval, hopen, hwrite,
      show ¬1000000 < c.length by omega]

/-- Witness: claim C9 on arguments missing the content field, on a path
with a drive separator, and on a successful write of "hello" to "f" in
the world `envWritable`. -/
theorem write_tool_contract_witness :
    WriteFileTool.execute envWritable argsPathF
      = ("ERROR: invalid arguments", [])
    ∧ WriteFileTool.execute envWritable argsColon
        = ("ERROR: invalid arguments ", [])
    ∧ WriteFileTool.execute envWritable argsWrite
        = ("SUCESS: file written.",
           [Eff.openTrunc "f", Eff.writeBytes "f" "hello"]) :=
  ⟨(write_tool_contract envWritable).1 argsPathF (Or.inr (by decide)),
   (write_tool_contract envWritable).2.1 argsColon "a:b" "c"
     (by decide) (by decide) (by decide),
   (write_tool_contract envWritable).2.2 argsWrite "f" "hello"
     (by decide) (by decide) (by decide) (by decide) rfl rfl⟩

/-! Claim C10. -/

/-- Claim C10: a zero-length file that opens successfully is accepted by
ReadFileTool — only a negative reported size is rejected — and the result
is the empty string as a success payload, after an open and a read. -/
theorem empty_file_read (env : Env) (args : Json) (p : String)
    (hp : jsonStrField args "path" = some p)
    (hdots : containsSub p ".." = false)
    (hfs : env.fsRead p = ReadOpen.ok 0 "") :
    ReadFileTool.execute env args
      = ("", [Eff.openRead p, Eff.readBytes p]) := by
  simp [ReadFileTool.execute, hp, hdots, hfs, strTake]

/-- Witness: claim C10 in the world `envEmptyFile`, where every path
opens as a zero-length file. -/
theorem empty_file_read_witness :
    ReadFileTool.execute envEmptyFile argsPathF
      = ("", [Eff.openRead "f", Eff.readBytes "f"]) :=
  empty_file_read envEmptyFile argsPathF "f" (by decide) (by decide) rfl

end ClaudeClient
